import Mathlib

/-!
Shallow embedding of the GStreamer RealSense source element
(`src/gstrealsensesrc.cpp`, `src/gstrealsensesrc.h`).

The element state (`RSState`) mirrors the fields of `_GstRealsenseSrc` that
the verified operations touch.  SDK and host interactions (device
enumeration, `wait_for_frames`, buffer allocation, buffer mapping) are made
explicit as environment records; SDK calls that can throw `rs2::error` are
modelled as `Except String`.  A C++ exception that no handler in the element
catches is modelled as a distinct `uncaught` outcome, since it escapes the
GObject callback rather than turning into a return value.
-/

/-- State of the `rs2::pipeline` object held through `src->rs_pipeline`:
created by `make_unique` but with `start(cfg)` not (or no longer) active,
or with continuous acquisition running.  `rs2::pipeline::stop` throws when
acquisition is not active, and `wait_for_frames` only delivers when it is. -/
inductive PipelineState
  | notStarted
  | started
deriving DecidableEq, Repr

/-- Negotiated caps as produced by `gst_video_info_to_caps`: RGB format,
pixel dimensions and the (hard-coded 30/1) frame rate. -/
structure CapsInfo where
  width : Nat
  height : Nat
  fpsN : Nat
  fpsD : Nat
deriving DecidableEq, Repr

/-- Mutable element state: the fields of `_GstRealsenseSrc` used by the
operations under verification.  Property fields are `gint`, modelled as
`Int`; `preset_file` is a nullable C string, modelled as `Option String`. -/
structure RSState where
  rs_pipeline : Option PipelineState
  aligner : Bool
  out_framesize : Nat
  frame_count : Nat
  caps : Option CapsInfo
  stop_requested : Bool
  color_width : Int
  color_height : Int
  color_fps : Int
  depth_width : Int
  depth_height : Int
  depth_fps : Int
  align : Int
  preset_file : Option String
deriving DecidableEq, Repr

/-- The table `valid_color_modes` of supported color (width, height, fps)
triples, copied verbatim from the source. -/
def valid_color_modes : List (Int × Int × Int) :=
  [(1920, 1080, 6), (1920, 1080, 15), (1920, 1080, 30),
   (1280, 720, 6), (1280, 720, 15), (1280, 720, 30),
   (960, 540, 6), (960, 540, 15), (960, 540, 30), (960, 540, 60),
   (848, 480, 6), (848, 480, 15), (848, 480, 30), (848, 480, 60),
   (640, 480, 6), (640, 480, 15), (640, 480, 30), (640, 480, 60),
   (640, 360, 6), (640, 360, 15), (640, 360, 30), (640, 360, 60),
   (424, 240, 6), (424, 240, 15), (424, 240, 30), (424, 240, 60),
   (320, 240, 6), (320, 240, 30), (320, 240, 60),
   (320, 180, 6), (320, 180, 30), (320, 180, 60)]

/-- The table `valid_depth_modes` of supported depth (width, height, fps)
triples, copied verbatim from the source. -/
def valid_depth_modes : List (Int × Int × Int) :=
  [(1280, 720, 6), (1280, 720, 15), (1280, 720, 30),
   (848, 480, 6), (848, 480, 15), (848, 480, 30), (848, 480, 60), (848, 480, 90),
   (640, 480, 6), (640, 480, 15), (640, 480, 30), (640, 480, 60), (640, 480, 90),
   (640, 360, 6), (640, 360, 15), (640, 360, 30), (640, 360, 60), (640, 360, 90),
   (480, 270, 6), (480, 270, 15), (480, 270, 30), (480, 270, 60), (480, 270, 90),
   (424, 240, 6), (424, 240, 15), (424, 240, 30), (424, 240, 60), (424, 240, 90)]

/-- Direct translation of `is_valid_mode`: linear scan of the mode table for
an exact (width, height, fps) match. -/
def is_valid_mode (modes : List (Int × Int × Int)) (w h fps : Int) : Bool :=
  modes.any (fun t => t.1 == w && t.2.1 == h && t.2.2 == fps)

/-- Outcome of `gst_realsense_src_reset` / `gst_realsense_src_stop`.  The
call either completes with the updated state, or an SDK exception thrown by
`rs2::pipeline::stop` escapes (nothing in the element catches it). -/
inductive ResetOutcome
  | ok (st : RSState)
  | uncaught (msg : String)
deriving DecidableEq, Repr

/-- Translation of `gst_realsense_src_reset`: when `rs_pipeline` is non-null
it first calls `rs_pipeline->stop()`.  `rs2::pipeline::stop` throws a
`wrong_api_call_sequence` SDK error when continuous acquisition is not
active (never started, or already stopped); `reset` has no handler, so the
exception escapes and none of the later assignments run.  Otherwise
`out_framesize` and `frame_count` are zeroed and `caps` is unref-ed and set
to NULL.  Note that the `rs_pipeline` pointer itself is never cleared. -/
def gst_realsense_src_reset (st : RSState) : ResetOutcome :=
  match st.rs_pipeline with
  | some PipelineState.notStarted => .uncaught "stop() cannot be called before start()"
  | some PipelineState.started =>
      .ok { st with rs_pipeline := some PipelineState.notStarted,
                    out_framesize := 0, frame_count := 0, caps := none }
  | none => .ok { st with out_framesize := 0, frame_count := 0, caps := none }

/-- Translation of `gst_realsense_src_stop`: it just calls the reset. -/
def gst_realsense_src_stop (st : RSState) : ResetOutcome :=
  gst_realsense_src_reset st

/-- State after `gst_realsense_src_init`: the defaults assigned in the init
function.  GObject allocates the instance zero-filled, so `rs_pipeline` and
`aligner` start as null; the trailing `gst_realsense_src_reset` call then
takes its null-pipeline branch and zeroes `out_framesize`/`frame_count`.
Note the in-memory default `align = Align::Color` (value 1). -/
def initState : RSState :=
  { rs_pipeline := none, aligner := false, out_framesize := 0, frame_count := 0,
    caps := none, stop_requested := false,
    color_width := 1280, color_height := 720, color_fps := 30,
    depth_width := 640, depth_height := 480, depth_fps := 30,
    align := 1, preset_file := none }

/-- Property ids installed in `gst_realsense_src_class_init`. -/
inductive PropId
  | align | colorWidth | colorHeight | colorFps
  | depthWidth | depthHeight | depthFps | presetFile
deriving DecidableEq, Repr

/-- A `GValue` as passed to the setter: either a `gint` or a nullable
string. -/
inductive GVal
  | gint (i : Int)
  | gstr (s : Option String)
deriving DecidableEq, Repr

/-- Behaviour of `g_value_get_int` on the modelled value. -/
def GVal.getInt : GVal → Int
  | .gint i => i
  | .gstr _ => 0

/-- Behaviour of `g_value_dup_string` on the modelled value. -/
def GVal.getStr : GVal → Option String
  | .gstr s => s
  | .gint _ => none

/-- The `switch (prop_id)` block of `gst_realsense_src_set_property`:
stores the incoming value in the matching field. -/
def assignProp (st : RSState) (p : PropId) (v : GVal) : RSState :=
  match p with
  | .align => { st with align := v.getInt }
  | .colorWidth => { st with color_width := v.getInt }
  | .colorHeight => { st with color_height := v.getInt }
  | .colorFps => { st with color_fps := v.getInt }
  | .depthWidth => { st with depth_width := v.getInt }
  | .depthHeight => { st with depth_height := v.getInt }
  | .depthFps => { st with depth_fps := v.getInt }
  | .presetFile => { st with preset_file := v.getStr }

/-- Warnings emitted through `GST_ELEMENT_WARNING`. -/
inductive Warn
  | invalidColorMode
  | invalidDepthMode
deriving DecidableEq, Repr

/-- The color-mode validation block at the end of the setter: when all three
stored color values are positive and the triple is not in the table, warn
and revert to 1280x720@30. -/
def validateColor (st : RSState) : RSState × List Warn :=
  if 0 < st.color_width ∧ 0 < st.color_height ∧ 0 < st.color_fps then
    if !(is_valid_mode valid_color_modes st.color_width st.color_height st.color_fps) then
      ({ st with color_width := 1280, color_height := 720, color_fps := 30 },
       [Warn.invalidColorMode])
    else (st, [])
  else (st, [])

/-- The depth-mode validation block at the end of the setter: when all three
stored depth values are positive and the triple is not in the table, warn
and revert to 640x480@30. -/
def validateDepth (st : RSState) : RSState × List Warn :=
  if 0 < st.depth_width ∧ 0 < st.depth_height ∧ 0 < st.depth_fps then
    if !(is_valid_mode valid_depth_modes st.depth_width st.depth_height st.depth_fps) then
      ({ st with depth_width := 640, depth_height := 480, depth_fps := 30 },
       [Warn.invalidDepthMode])
    else (st, [])
  else (st, [])

/-- Translation of `gst_realsense_src_set_property`: store the value, then
run the color validation and the depth validation (in that order, on the
updated state).  Returns the new state and the warnings emitted. -/
def gst_realsense_src_set_property (st : RSState) (p : PropId) (v : GVal) :
    RSState × List Warn :=
  ((validateDepth (validateColor (assignProp st p v)).1).1,
   (validateColor (assignProp st p v)).2
     ++ (validateDepth (validateColor (assignProp st p v)).1).2)

/-- The GParamSpec ranges declared in `gst_realsense_src_class_init`; the
GObject property system clamps values into these ranges before the setter
runs, so every value reaching the setter satisfies this predicate. -/
def propInRange (p : PropId) (v : GVal) : Bool :=
  match p, v with
  | .align, .gint i => decide (0 ≤ i ∧ i ≤ 2)
  | .colorWidth, .gint i => decide (1 ≤ i ∧ i ≤ 4096)
  | .colorHeight, .gint i => decide (1 ≤ i ∧ i ≤ 2160)
  | .colorFps, .gint i => decide (1 ≤ i ∧ i ≤ 120)
  | .depthWidth, .gint i => decide (1 ≤ i ∧ i ≤ 2048)
  | .depthHeight, .gint i => decide (1 ≤ i ∧ i ≤ 1536)
  | .depthFps, .gint i => decide (1 ≤ i ∧ i ≤ 120)
  | .presetFile, .gstr _ => true
  | _, _ => false

/-- Both stored stream triples are members of their mode tables. -/
def validTriples (st : RSState) : Bool :=
  is_valid_mode valid_color_modes st.color_width st.color_height st.color_fps &&
  is_valid_mode valid_depth_modes st.depth_width st.depth_height st.depth_fps

/-- A color frame pulled from the SDK: reported width/height and its raw
RGB8 byte data (`get_width`, `get_height`, `get_data`). -/
structure ColorFrame where
  width : Nat
  height : Nat
  data : List Nat
deriving DecidableEq, Repr

/-- A depth frame pulled from the SDK: a row-major sequence of 16-bit
unsigned samples (`get_data` viewed as `const uint16_t*`). -/
structure DepthFrame where
  data : List Nat
deriving DecidableEq, Repr

/-- One synchronized frame set, as returned by `wait_for_frames` (possibly
after `aligner->process`). -/
structure FrameSet where
  color : ColorFrame
  depth : DepthFrame
deriving DecidableEq, Repr

/-- GStreamer's `GST_ROUND_UP_4`. -/
def roundUp4 (n : Nat) : Nat := ((n + 3) / 4) * 4

/-- The size `gst_video_info_set_format` computes for
`GST_VIDEO_FORMAT_RGB`: the single plane's stride is
`GST_ROUND_UP_4 (width * 3)` and `info->size = stride * height`. -/
def gstVideoRGBSize (width height : Nat) : Nat :=
  roundUp4 (width * 3) * height

/-- Translation of `gst_realsense_src_calculate_caps`.  The argument is the
frame set obtained from `wait_for_frames` (run through the aligner when one
is configured); an SDK error there is caught and turns into a `false`
return with the state untouched.  On success the output width is the color
frame's width, the output height is twice the color frame's height, the
caps are rebuilt with the hard-coded 30/1 rate, and `out_framesize` is set
to the `GST_VIDEO_INFO_SIZE` of that RGB video info. -/
def gst_realsense_src_calculate_caps (st : RSState)
    (frames : Except String FrameSet) : Bool × RSState :=
  match frames with
  | .error _ => (false, st)
  | .ok fs =>
      let width := fs.color.width
      let height := fs.color.height * 2
      (true,
       { st with
          caps := some { width := width, height := height, fpsN := 30, fpsD := 1 },
          out_framesize := gstVideoRGBSize width height })

deriving instance DecidableEq for Except

/-- One enumerated device: its `RS2_CAMERA_INFO_NAME` and serial number. -/
structure DeviceInfo where
  name : String
  serial : String
deriving DecidableEq, Repr

/-- Environment of a `gst_realsense_src_start` call: what the SDK does at
each step the code performs.  `capsFrames` is the frame set the one-shot
caps negotiation pulls (after alignment), or the SDK error it raises. -/
structure StartEnv where
  devices : List DeviceInfo
  advancedModeEnabled : Bool
  presetFileOpens : Bool
  loadJsonResult : Except String Unit
  pipelineStartResult : Except String Unit
  capsFrames : Except String FrameSet
deriving DecidableEq, Repr

/-- Classified reasons for `gst_realsense_src_start` returning FALSE, in
the order the code can hit them. -/
inductive StartErr
  | invalidColorMode
  | invalidDepthMode
  | noDevice
  | unsupportedDevice
  | sdkPreset (e : String)
  | sdkStart (e : String)
  | sdkCaps
deriving DecidableEq, Repr

/-- The preset block of `gst_realsense_src_start` (reached only for a
D435I): with no configured preset path, or an empty one, nothing happens;
with a path that does not open, only a warning is emitted; otherwise
`load_json` runs and an SDK error from it propagates to the enclosing
catch. -/
def presetStep (st : RSState) (env : StartEnv) : Except StartErr Unit :=
  match st.preset_file with
  | none => .ok ()
  | some s =>
      if s = "" then .ok ()
      else if !env.presetFileOpens then .ok ()
      else
        match env.loadJsonResult with
        | .error e => .error (.sdkPreset e)
        | .ok () => .ok ()

/-- Body of `gst_realsense_src_start` after the two mode checks: the state
already holds the freshly created pipeline handle.  Mirrors the source
order: enumerate devices, gate on the device model, run the preset block,
build the aligner from the align property, start continuous acquisition,
then run the one-shot caps calculation.  Every failing branch just returns
FALSE; none of them stops or clears the pipeline handle. -/
def startBody (st1 : RSState) (env : StartEnv) : Except StartErr Unit × RSState :=
  match env.devices with
  | [] => (.error .noDevice, st1)
  | dev :: _ =>
      if dev.name = "Intel RealSense D435I" then
        match presetStep st1 env with
        | .error e => (.error e, st1)
        | .ok () =>
            let st2 := { st1 with aligner := (st1.align == 1 || st1.align == 2) }
            match env.pipelineStartResult with
            | .error e => (.error (.sdkStart e), st2)
            | .ok () =>
                let st3 := { st2 with rs_pipeline := some PipelineState.started }
                match gst_realsense_src_calculate_caps st3 env.capsFrames with
                | (true, st4) => (.ok (), st4)
                | (false, st4) => (.error .sdkCaps, st4)
      else (.error .unsupportedDevice, st1)

/-- Translation of `gst_realsense_src_start`: validate both configured
modes first (hard failure, pipeline not created); then create the
`rs2::pipeline` object and run the rest of the sequence. -/
def gst_realsense_src_start (st : RSState) (env : StartEnv) :
    Except StartErr Unit × RSState :=
  if !(is_valid_mode valid_color_modes st.color_width st.color_height st.color_fps) then
    (.error .invalidColorMode, st)
  else if !(is_valid_mode valid_depth_modes st.depth_width st.depth_height st.depth_fps) then
    (.error .invalidDepthMode, st)
  else
    startBody { st with rs_pipeline := some PipelineState.notStarted } env

/-- Frames can subsequently be pulled exactly when the element holds a
pipeline on which `start(cfg)` has succeeded and is still active:
`wait_for_frames` on a merely created (or stopped) pipeline raises an SDK
error instead of delivering a frame set. -/
def canPull (st : RSState) : Bool :=
  match st.rs_pipeline with
  | some PipelineState.started => true
  | _ => false

/-- A caps object as returned to the host from `gst_realsense_src_get_caps`:
either the pad template caps or a copy of the negotiated caps. -/
inductive CapsObj
  | template
  | negotiated (c : CapsInfo)
deriving DecidableEq, Repr

/-- Translation of `gst_realsense_src_get_caps` (no filter): when
`rs_pipeline` is null the pad template caps are returned; otherwise
`gst_caps_copy (src->caps)` is returned, and copying a NULL caps pointer
fails its precondition check and yields NULL, modelled as `none`. -/
def gst_realsense_src_get_caps (st : RSState) : Option CapsObj :=
  match st.rs_pipeline with
  | none => some CapsObj.template
  | some _ =>
      match st.caps with
      | some c => some (CapsObj.negotiated c)
      | none => none

/-- Translation of `gst_realsense_src_unlock`: latch the stop request. -/
def gst_realsense_src_unlock (st : RSState) : RSState :=
  { st with stop_requested := true }

/-- Translation of `gst_realsense_src_unlock_stop`: clear the latch. -/
def gst_realsense_src_unlock_stop (st : RSState) : RSState :=
  { st with stop_requested := false }

/-- Environment of one `gst_realsense_src_create` call: the result of
`wait_for_frames`, the result of `aligner->process` (consulted only when an
aligner is configured), whether `gst_buffer_new_and_alloc` returns a buffer,
whether `gst_buffer_map` succeeds, and the initial content of the freshly
allocated (uninitialized) buffer memory. -/
structure CreateEnv where
  waitFrames : Except String FrameSet
  alignResult : Except String FrameSet
  allocOk : Bool
  mapOk : Bool
  uninit : Nat → Nat

/-- The frame set `create` works on: `wait_for_frames`, then
`aligner->process` when an aligner is configured. -/
def effectiveFrames (st : RSState) (env : CreateEnv) : Except String FrameSet :=
  match env.waitFrames with
  | .error e => .error e
  | .ok fs => if st.aligner then env.alignResult else .ok fs

/-- The `GstFlowReturn` values `create` can produce. -/
inductive FlowRet
  | ok
  | flushing
  | error
deriving DecidableEq, Repr

/-- Outcome of a `create` call: a flow return (with the delivered buffer,
when one was produced), or a C++ exception that no handler catches and
that therefore escapes the callback. -/
inductive CreateOutcome
  | ret (flow : FlowRet) (buf : Option (Nat → Nat))
  | uncaughtException (msg : String)

/-- One byte of the depth-to-RGB encoding loop: channel `c` (0 = R, 1 = G,
2 = B) of the pixel encoding depth sample `d`. -/
def encodeDepthByte (d : Nat) (c : Nat) : Nat :=
  if d < 2560 then
    if c = 0 then d % 10 else if c = 1 then d / 10 else d % 10
  else 0

/-- Content of the mapped output buffer after the fill code of `create`:
`memcpy(top_half, color_data, minfo.size / 2)` makes byte `j < size / 2`
the byte `j` of the color frame's raw data; the loop then writes, for every
`i < num_pixels` (with `num_pixels` the color frame's pixel count), the
3-byte encoding of depth sample `i` at offset `size / 2 + 3 * i`.  Bytes
beyond the written region keep the allocation's uninitialized content. -/
def fillBuffer (size : Nat) (fs : FrameSet) (uninit : Nat → Nat) (j : Nat) : Nat :=
  if j < size / 2 then fs.color.data.getD j 0
  else
    if (j - size / 2) / 3 < fs.color.width * fs.color.height then
      encodeDepthByte (fs.depth.data.getD ((j - size / 2) / 3) 0) ((j - size / 2) % 3)
    else uninit j

/-- Translation of `gst_realsense_src_create`.  An SDK error from
`wait_for_frames` or the aligner is caught and returned as
`GST_FLOW_ERROR`.  A failed buffer allocation throws `std::runtime_error`
after reporting the element error; the only handler is
`catch (const rs2::error&)`, which does not match `std::runtime_error`, so
the exception escapes the call.  A failed `gst_buffer_map` returns
`GST_FLOW_ERROR`.  Otherwise the buffer is filled, `frame_count` is
incremented, and the call returns `GST_FLOW_FLUSHING` when a stop request
is latched and `GST_FLOW_OK` otherwise. -/
def gst_realsense_src_create (st : RSState) (env : CreateEnv) :
    CreateOutcome × RSState :=
  match effectiveFrames st env with
  | .error _ => (.ret .error none, st)
  | .ok fs =>
      if !env.allocOk then
        (.uncaughtException "failed to allocate buffer", st)
      else if !env.mapOk then
        (.ret .error none, st)
      else
        (.ret (if st.stop_requested then .flushing else .ok)
              (some (fillBuffer st.out_framesize fs env.uninit)),
         { st with frame_count := st.frame_count + 1 })

/-- Projects the state out of a completed stop, with a default for the
escaped-exception case (used only to phrase concrete traces). -/
def stopStateD (o : ResetOutcome) (dflt : RSState) : RSState :=
  match o with
  | .ok s => s
  | .uncaught _ => dflt

/-- Whether a stop/reset call completed without an escaping exception. -/
def resetIsOk (o : ResetOutcome) : Bool :=
  match o with
  | .ok _ => true
  | .uncaught _ => false

/-- The stored color triple is all-positive yet absent from the color mode
table (the condition under which the setter reverts it). -/
def colorInvalidPos (st : RSState) : Prop :=
  0 < st.color_width ∧ 0 < st.color_height ∧ 0 < st.color_fps ∧
  is_valid_mode valid_color_modes st.color_width st.color_height st.color_fps = false

/-- The stored depth triple is all-positive yet absent from the depth mode
table. -/
def depthInvalidPos (st : RSState) : Prop :=
  0 < st.depth_width ∧ 0 < st.depth_height ∧ 0 < st.depth_fps ∧
  is_valid_mode valid_depth_modes st.depth_width st.depth_height st.depth_fps = false

instance (st : RSState) : Decidable (colorInvalidPos st) := by
  unfold colorInvalidPos
  infer_instance

instance (st : RSState) : Decidable (depthInvalidPos st) := by
  unfold depthInvalidPos
  infer_instance

/-- A nominal 1280x720 frame set used in concrete traces. -/
def goodFs : FrameSet :=
  { color := { width := 1280, height := 720, data := [] }, depth := { data := [] } }

/-- A start environment in which every SDK step succeeds on a connected
D435I. -/
def goodStartEnv : StartEnv :=
  { devices := [{ name := "Intel RealSense D435I", serial := "0" }],
    advancedModeEnabled := true, presetFileOpens := true,
    loadJsonResult := .ok (), pipelineStartResult := .ok (),
    capsFrames := .ok goodFs }

/-- A frame set whose color frame is 2 pixels wide: its row of 6 RGB bytes
is not a multiple of 4, so the GStreamer stride is padded. -/
def fsWidth2 : FrameSet :=
  { color := { width := 2, height := 1, data := [] }, depth := { data := [] } }

/-- Successful start whose one-shot negotiation frame has width 2. -/
def stride2Env : StartEnv := { goodStartEnv with capsFrames := .ok fsWidth2 }

/-- Start environment in which only the caps-negotiation frame pull fails
(after continuous acquisition has already started). -/
def capsFailEnv : StartEnv := { goodStartEnv with capsFrames := .error "wait_for_frames" }

/-- Start environment with a connected RealSense that is not a D435I. -/
def otherDeviceEnv : StartEnv :=
  { goodStartEnv with devices := [{ name := "Intel RealSense D455", serial := "9" }] }

/-- A small streaming-state element: 2x1 color frames, negotiated frame
size 12 bytes, no aligner, no pending stop request. -/
def smallState : RSState :=
  { initState with rs_pipeline := some PipelineState.started,
                   aligner := false, out_framesize := 12 }

/-- A 2x1 frame set with concrete bytes: depth sample 25 encodes to
(5, 2, 5) and sample 2600 is clipped to (0, 0, 0). -/
def smallFs : FrameSet :=
  { color := { width := 2, height := 1, data := [11, 22, 33, 44, 55, 66] },
    depth := { data := [25, 2600] } }

/-- A create environment in which the device delivers `smallFs` and the
host allocation and mapping succeed. -/
def smallOkEnv : CreateEnv :=
  { waitFrames := .ok smallFs, alignResult := .ok smallFs,
    allocOk := true, mapOk := true, uninit := fun _ => 0 }

/-- The same environment except that `gst_buffer_new_and_alloc` fails. -/
def allocFailEnv : CreateEnv := { smallOkEnv with allocOk := false }

/-- Whether a create outcome is an ordinary `GstFlowReturn` (as opposed to
an exception escaping the callback). -/
def returnsFlow : CreateOutcome → Bool
  | .ret _ _ => true
  | .uncaughtException _ => false

theorem mem_of_is_valid_mode {modes : List (Int × Int × Int)} {w h f : Int}
    (hv : is_valid_mode modes w h f = true) : (w, h, f) ∈ modes := by
  unfold is_valid_mode at hv
  rw [List.any_eq_true] at hv
  obtain ⟨t, ht, he⟩ := hv
  obtain ⟨a, b, c⟩ := t
  simp only [Bool.and_eq_true, beq_iff_eq] at he
  obtain ⟨⟨h1, h2⟩, h3⟩ := he
  subst h1
  subst h2
  subst h3
  exact ht

theorem color_mode_pos {w h f : Int}
    (hv : is_valid_mode valid_color_modes w h f = true) : 0 < w ∧ 0 < h ∧ 0 < f := by
  have hall : ∀ t ∈ valid_color_modes, 0 < t.1 ∧ 0 < t.2.1 ∧ 0 < t.2.2 := by decide
  exact hall _ (mem_of_is_valid_mode hv)

theorem depth_mode_pos {w h f : Int}
    (hv : is_valid_mode valid_depth_modes w h f = true) : 0 < w ∧ 0 < h ∧ 0 < f := by
  have hall : ∀ t ∈ valid_depth_modes, 0 < t.1 ∧ 0 < t.2.1 ∧ 0 < t.2.2 := by decide
  exact hall _ (mem_of_is_valid_mode hv)

theorem validateColor_depth_fields (st : RSState) :
    (validateColor st).1.depth_width = st.depth_width
    ∧ (validateColor st).1.depth_height = st.depth_height
    ∧ (validateColor st).1.depth_fps = st.depth_fps := by
  unfold validateColor
  split_ifs <;> simp

theorem validateDepth_color_fields (st : RSState) :
    (validateDepth st).1.color_width = st.color_width
    ∧ (validateDepth st).1.color_height = st.color_height
    ∧ (validateDepth st).1.color_fps = st.color_fps := by
  unfold validateDepth
  split_ifs <;> simp

theorem validateColor_valid_out (st : RSState)
    (hpos : 0 < st.color_width ∧ 0 < st.color_height ∧ 0 < st.color_fps) :
    is_valid_mode valid_color_modes (validateColor st).1.color_width
      (validateColor st).1.color_height (validateColor st).1.color_fps = true := by
  unfold validateColor
  rw [if_pos hpos]
  by_cases hv : is_valid_mode valid_color_modes st.color_width st.color_height st.color_fps = true
  · simp [hv]
  · rw [Bool.not_eq_true] at hv
    simp only [hv, Bool.not_false, if_true]
    decide

theorem validateDepth_valid_out (st : RSState)
    (hpos : 0 < st.depth_width ∧ 0 < st.depth_height ∧ 0 < st.depth_fps) :
    is_valid_mode valid_depth_modes (validateDepth st).1.depth_width
      (validateDepth st).1.depth_height (validateDepth st).1.depth_fps = true := by
  unfold validateDepth
  rw [if_pos hpos]
  by_cases hv : is_valid_mode valid_depth_modes st.depth_width st.depth_height st.depth_fps = true
  · simp [hv]
  · rw [Bool.not_eq_true] at hv
    simp only [hv, Bool.not_false, if_true]
    decide

theorem validateColor_reset (st : RSState) (h : colorInvalidPos st) :
    validateColor st =
      ({ st with color_width := 1280, color_height := 720, color_fps := 30 },
       [Warn.invalidColorMode]) := by
  obtain ⟨h1, h2, h3, h4⟩ := h
  unfold validateColor
  rw [if_pos ⟨h1, h2, h3⟩, h4]
  simp

theorem validateDepth_reset (st : RSState) (h : depthInvalidPos st) :
    validateDepth st =
      ({ st with depth_width := 640, depth_height := 480, depth_fps := 30 },
       [Warn.invalidDepthMode]) := by
  obtain ⟨h1, h2, h3, h4⟩ := h
  unfold validateDepth
  rw [if_pos ⟨h1, h2, h3⟩, h4]
  simp

theorem start_steps (st : RSState) (env : StartEnv) (d : DeviceInfo)
    (rest : List DeviceInfo)
    (hc : is_valid_mode valid_color_modes st.color_width st.color_height st.color_fps = true)
    (hd : is_valid_mode valid_depth_modes st.depth_width st.depth_height st.depth_fps = true)
    (hdev : env.devices = d :: rest)
    (hn : d.name = "Intel RealSense D435I")
    (hpre : st.preset_file = none ∨ st.preset_file = some "") :
    (∀ e, env.pipelineStartResult = .error e →
       gst_realsense_src_start st env =
         (.error (.sdkStart e),
          { st with rs_pipeline := some PipelineState.notStarted,
                    aligner := (st.align == 1 || st.align == 2) }))
    ∧ (env.pipelineStartResult = .ok () → ∀ e, env.capsFrames = .error e →
       gst_realsense_src_start st env =
         (.error .sdkCaps,
          { st with rs_pipeline := some PipelineState.started,
                    aligner := (st.align == 1 || st.align == 2) }))
    ∧ (env.pipelineStartResult = .ok () → ∀ fs, env.capsFrames = .ok fs →
       gst_realsense_src_start st env =
         (.ok (),
          { st with rs_pipeline := some PipelineState.started,
                    aligner := (st.align == 1 || st.align == 2),
                    caps := some { width := fs.color.width, height := fs.color.height * 2,
                                   fpsN := 30, fpsD := 1 },
                    out_framesize := gstVideoRGBSize fs.color.width (fs.color.height * 2) })) := by
  have hpres : presetStep { st with rs_pipeline := some PipelineState.notStarted } env = .ok () := by
    rcases hpre with hp | hp <;> simp [presetStep, hp]
  refine ⟨?_, ?_, ?_⟩
  · intro e he
    simp [gst_realsense_src_start, hc, hd, startBody, hdev, hn, hpres, he]
  · intro hok e he
    simp [gst_realsense_src_start, hc, hd, startBody, hdev, hn, hpres, hok, he,
          gst_realsense_src_calculate_caps]
  · intro hok fs hfs
    simp [gst_realsense_src_start, hc, hd, startBody, hdev, hn, hpres, hok, hfs,
          gst_realsense_src_calculate_caps]

theorem presetStep_err_form {st : RSState} {env : StartEnv} {e : StartErr}
    (h : presetStep st env = .error e) : ∃ s, e = StartErr.sdkPreset s := by
  unfold presetStep at h
  split at h
  · exact Except.noConfusion h
  · split at h
    · exact Except.noConfusion h
    · split at h
      · exact Except.noConfusion h
      · split at h
        · rename_i msg hmsg
          injection h with h2
          exact ⟨msg, h2.symm⟩
        · exact Except.noConfusion h

theorem startBody_no_mode_error (st : RSState) (env : StartEnv) :
    (startBody st env).1 ≠ .error StartErr.invalidColorMode
    ∧ (startBody st env).1 ≠ .error StartErr.invalidDepthMode := by
  unfold startBody
  cases henv : env.devices with
  | nil => simp
  | cons d rest =>
      by_cases hn : d.name = "Intel RealSense D435I"
      · simp only [hn, if_true]
        cases hps : presetStep st env with
        | error e =>
            obtain ⟨s, rfl⟩ := presetStep_err_form hps
            simp
        | ok u =>
            cases u
            cases hpr : env.pipelineStartResult with
            | error e => simp
            | ok u2 =>
                cases u2
                cases hcc : gst_realsense_src_calculate_caps
                    { st with aligner := (st.align == 1 || st.align == 2),
                              rs_pipeline := some PipelineState.started } env.capsFrames with
                | mk b st4 => cases b <;> simp
      · simp [hn]

theorem roundUp4_exact {n : Nat} (h : n % 4 = 0) : roundUp4 n = n := by
  unfold roundUp4
  omega

/-- C2 (counterexample): a successful start whose first pulled color frame
is 2 pixels wide negotiates height 2 (twice the color height) but publishes
a frame size of 16 bytes (`GST_ROUND_UP_4 (2 * 3) * 2`), not
width x height x 3 = 12 bytes: the stride padding of the RGB video info
enters the published size. -/
theorem caps_size_stride_cex :
    (gst_realsense_src_start initState stride2Env).1 = .ok ()
    ∧ (gst_realsense_src_start initState stride2Env).2.caps
        = some { width := 2, height := 2, fpsN := 30, fpsD := 1 }
    ∧ (gst_realsense_src_start initState stride2Env).2.out_framesize = 16
    ∧ (gst_realsense_src_start initState stride2Env).2.out_framesize ≠ 2 * 2 * 3 := by
  refine ⟨rfl, rfl, rfl, ?_⟩
  decide

/-- C2 (amended): the caps negotiation always sets the negotiated height to
exactly twice the reported color frame height, and publishes frame size
`GST_ROUND_UP_4 (width * 3) * height`; that equals width x height x 3
exactly when the reported width is a multiple of 4 — which holds for every
width in the color mode table. -/
theorem caps_negotiation_amended (st : RSState) (fs : FrameSet) :
    (gst_realsense_src_calculate_caps st (.ok fs)).1 = true
    ∧ (gst_realsense_src_calculate_caps st (.ok fs)).2.caps
        = some { width := fs.color.width, height := fs.color.height * 2,
                 fpsN := 30, fpsD := 1 }
    ∧ (gst_realsense_src_calculate_caps st (.ok fs)).2.out_framesize
        = roundUp4 (fs.color.width * 3) * (fs.color.height * 2)
    ∧ (fs.color.width % 4 = 0 →
        (gst_realsense_src_calculate_caps st (.ok fs)).2.out_framesize
          = fs.color.width * (fs.color.height * 2) * 3)
    ∧ (∀ t ∈ valid_color_modes, t.1 % 4 = 0) := by
  refine ⟨rfl, rfl, rfl, ?_, by decide⟩
  intro h4
  have h3 : (gst_realsense_src_calculate_caps st (.ok fs)).2.out_framesize
      = roundUp4 (fs.color.width * 3) * (fs.color.height * 2) := rfl
  rw [h3, roundUp4_exact (by omega : fs.color.width * 3 % 4 = 0)]
  ring

/-- C2 (witness): at the nominal 1280x720 negotiation frame the width is a
multiple of 4 and the published size is 1280 x 1440 x 3. -/
theorem caps_negotiation_amended_witness :
    goodFs.color.width % 4 = 0
    ∧ (gst_realsense_src_calculate_caps initState (.ok goodFs)).2.out_framesize
        = goodFs.color.width * (goodFs.color.height * 2) * 3 :=
  ⟨by decide, (caps_negotiation_amended initState goodFs).2.2.2.1 (by decide)⟩

/-- C3 (counterexample): when the one-shot caps negotiation fails after
continuous acquisition has started, start returns an error, yet the
acquisition session is left running — frames can subsequently be pulled. -/
theorem start_error_session_cex :
    (gst_realsense_src_start initState capsFailEnv).1 = .error StartErr.sdkCaps
    ∧ canPull (gst_realsense_src_start initState capsFailEnv).2 = true :=
  ⟨rfl, rfl⟩

/-- C3 (amended): every SDK failure during start is surfaced as an error
return, but the cleanup guarantee depends on where the failure happens: a
failure of `rs2::pipeline::start` leaves no running acquisition, while a
failure in the caps negotiation (which runs after acquisition started)
leaves the started session running, so frames can subsequently be pulled. -/
theorem start_error_surfaced_amended (st : RSState) (env : StartEnv) (d : DeviceInfo)
    (rest : List DeviceInfo)
    (hc : is_valid_mode valid_color_modes st.color_width st.color_height st.color_fps = true)
    (hd : is_valid_mode valid_depth_modes st.depth_width st.depth_height st.depth_fps = true)
    (hdev : env.devices = d :: rest)
    (hn : d.name = "Intel RealSense D435I")
    (hpre : st.preset_file = none ∨ st.preset_file = some "") :
    (∀ e, env.pipelineStartResult = .error e →
       (gst_realsense_src_start st env).1 = .error (.sdkStart e)
       ∧ canPull (gst_realsense_src_start st env).2 = false)
    ∧ (env.pipelineStartResult = .ok () → ∀ e, env.capsFrames = .error e →
       (gst_realsense_src_start st env).1 = .error .sdkCaps
       ∧ canPull (gst_realsense_src_start st env).2 = true) := by
  obtain ⟨hA, hB, _⟩ := start_steps st env d rest hc hd hdev hn hpre
  constructor
  · intro e he
    rw [hA e he]
    exact ⟨rfl, rfl⟩
  · intro hok e he
    rw [hB hok e he]
    exact ⟨rfl, rfl⟩

/-- C3 (witness): the amended theorem applied to the concrete caps-failure
environment. -/
theorem start_error_surfaced_amended_witness :
    (gst_realsense_src_start initState capsFailEnv).1 = .error StartErr.sdkCaps
    ∧ canPull (gst_realsense_src_start initState capsFailEnv).2 = true :=
  (start_error_surfaced_amended initState capsFailEnv
      { name := "Intel RealSense D435I", serial := "0" } []
      (by decide) (by decide) rfl rfl (Or.inl rfl)).2 rfl "wait_for_frames" rfl

/-- C4 (counterexample): with no preset payload configured at all, start
still fails when the first enumerated device is not a D435I — the model
gate is unconditional, not tied to preset loading. -/
theorem device_gate_cex :
    initState.preset_file = none
    ∧ (gst_realsense_src_start initState otherDeviceEnv).1
        = .error StartErr.unsupportedDevice :=
  ⟨rfl, rfl⟩

/-- C4 (amended): start rejects with UnsupportedDevice exactly when the
first enumerated device's model is not "Intel RealSense D435I", regardless
of the preset configuration; when the device is a D435I and no preset
payload is configured (absent or empty path), no preset-related failure
occurs and start succeeds provided the remaining SDK steps succeed. -/
theorem device_gate_amended (st : RSState) (env : StartEnv) (d : DeviceInfo)
    (rest : List DeviceInfo)
    (hc : is_valid_mode valid_color_modes st.color_width st.color_height st.color_fps = true)
    (hd : is_valid_mode valid_depth_modes st.depth_width st.depth_height st.depth_fps = true)
    (hdev : env.devices = d :: rest) :
    (d.name ≠ "Intel RealSense D435I" →
       (gst_realsense_src_start st env).1 = .error StartErr.unsupportedDevice
       ∧ canPull (gst_realsense_src_start st env).2 = false)
    ∧ (d.name = "Intel RealSense D435I" →
       (st.preset_file = none ∨ st.preset_file = some "") →
       (env.pipelineStartResult = .ok () → ∀ fs, env.capsFrames = .ok fs →
          (gst_realsense_src_start st env).1 = .ok ())) := by
  constructor
  · intro hne
    simp [gst_realsense_src_start, hc, hd, startBody, hdev, hne, canPull]
  · intro hn hpre hok fs hfs
    obtain ⟨_, _, hC⟩ := start_steps st env d rest hc hd hdev hn hpre
    rw [hC hok fs hfs]

/-- C4 (witness): the amended theorem applied to a non-D435I device and to
a D435I with empty preset configuration. -/
theorem device_gate_amended_witness :
    ((gst_realsense_src_start initState otherDeviceEnv).1
        = .error StartErr.unsupportedDevice
     ∧ canPull (gst_realsense_src_start initState otherDeviceEnv).2 = false)
    ∧ (gst_realsense_src_start initState goodStartEnv).1 = .ok () :=
  ⟨(device_gate_amended initState otherDeviceEnv
      { name := "Intel RealSense D455", serial := "9" } []
      (by decide) (by decide) rfl).1 (by decide),
   (device_gate_amended initState goodStartEnv
      { name := "Intel RealSense D435I", serial := "0" } []
      (by decide) (by decide) rfl).2 rfl (Or.inl rfl) rfl goodFs rfl⟩

/-- C5: when buffer allocation fails, create does not produce any
`GstFlowReturn` at all (in particular not `GST_FLOW_ERROR`): it throws
`std::runtime_error`, which the `rs2::error`-only handler cannot catch, so
the exception escapes the call; the element state is untouched. -/
theorem create_alloc_failure_uncaught :
    (gst_realsense_src_create smallState allocFailEnv).1
      = .uncaughtException "failed to allocate buffer"
    ∧ returnsFlow (gst_realsense_src_create smallState allocFailEnv).1 = false
    ∧ (gst_realsense_src_create smallState allocFailEnv).2 = smallState :=
  ⟨rfl, rfl, rfl⟩

/-- C6 (counterexample): after a successful start, a first stop completes,
but a second stop calls `rs2::pipeline::stop` on a pipeline whose
acquisition is no longer active (the handle is never cleared), and the SDK
exception escapes the stop call. -/
theorem stop_double_cex :
    (gst_realsense_src_start initState goodStartEnv).1 = .ok ()
    ∧ resetIsOk (gst_realsense_src_stop
        (gst_realsense_src_start initState goodStartEnv).2) = true
    ∧ gst_realsense_src_stop
        (stopStateD (gst_realsense_src_stop
          (gst_realsense_src_start initState goodStartEnv).2) initState)
      = .uncaught "stop() cannot be called before start()" :=
  ⟨rfl, rfl, rfl⟩

/-- C6 (amended): stop on an element whose pipeline handle is null (never
started) is a safe no-op that only clears counters and caps; a stop while
acquisition is active succeeds; but stop is not idempotent: once the
pipeline handle exists with acquisition inactive — in particular right
after a previous stop — another stop raises an SDK exception that escapes
the call. -/
theorem stop_safety_amended (st : RSState) :
    (st.rs_pipeline = none →
       gst_realsense_src_stop st =
         .ok { st with out_framesize := 0, frame_count := 0, caps := none })
    ∧ (st.rs_pipeline = some PipelineState.started →
       gst_realsense_src_stop st =
         .ok { st with rs_pipeline := some PipelineState.notStarted,
                       out_framesize := 0, frame_count := 0, caps := none })
    ∧ (st.rs_pipeline = some PipelineState.notStarted →
       gst_realsense_src_stop st = .uncaught "stop() cannot be called before start()") := by
  refine ⟨?_, ?_, ?_⟩ <;> intro h <;>
    simp [gst_realsense_src_stop, gst_realsense_src_reset, h]

/-- C6 (witness): stop on the never-started initial state is the safe
no-op. -/
theorem stop_safety_amended_witness :
    gst_realsense_src_stop initState =
      .ok { initState with out_framesize := 0, frame_count := 0, caps := none } :=
  (stop_safety_amended initState).1 rfl

/-- C10: on the fresh element get_caps returns the template caps, but after
a successful start followed by a stop, the pipeline handle is still
non-null while the caps were reset to NULL, so get_caps copies a NULL caps
pointer and returns NULL instead of a valid caps object. -/
theorem get_caps_after_stop_null :
    gst_realsense_src_get_caps initState = some CapsObj.template
    ∧ (gst_realsense_src_start initState goodStartEnv).1 = .ok ()
    ∧ resetIsOk (gst_realsense_src_stop
        (gst_realsense_src_start initState goodStartEnv).2) = true
    ∧ gst_realsense_src_get_caps
        (stopStateD (gst_realsense_src_stop
          (gst_realsense_src_start initState goodStartEnv).2) initState)
      = none :=
  ⟨rfl, rfl, rfl, rfl⟩

theorem validateColor_keeps_depthInvalid (st : RSState) (h : depthInvalidPos st) :
    depthInvalidPos (validateColor st).1 := by
  obtain ⟨hf1, hf2, hf3⟩ := validateColor_depth_fields st
  unfold depthInvalidPos at h ⊢
  rw [hf1, hf2, hf3]
  exact h

theorem set_property_color_reset (st : RSState) (p : PropId) (v : GVal)
    (h : colorInvalidPos (assignProp st p v)) :
    (gst_realsense_src_set_property st p v).1.color_width = 1280
    ∧ (gst_realsense_src_set_property st p v).1.color_height = 720
    ∧ (gst_realsense_src_set_property st p v).1.color_fps = 30
    ∧ Warn.invalidColorMode ∈ (gst_realsense_src_set_property st p v).2 := by
  unfold gst_realsense_src_set_property
  rw [validateColor_reset _ h]
  simp only
  unfold validateDepth
  split_ifs <;> simp

theorem set_property_depth_reset (st : RSState) (p : PropId) (v : GVal)
    (h : depthInvalidPos (assignProp st p v)) :
    (gst_realsense_src_set_property st p v).1.depth_width = 640
    ∧ (gst_realsense_src_set_property st p v).1.depth_height = 480
    ∧ (gst_realsense_src_set_property st p v).1.depth_fps = 30
    ∧ Warn.invalidDepthMode ∈ (gst_realsense_src_set_property st p v).2 := by
  unfold gst_realsense_src_set_property
  rw [validateDepth_reset _ (validateColor_keeps_depthInvalid _ h)]
  simp

/-- C8: a configuration change after which a stream's stored (width,
height, fps) triple is all-positive yet absent from that stream's mode
table makes the setter emit the warning and revert that stream to the
fixed fallback (1280x720@30 for color, 640x480@30 for depth); reapplying a
change that again produces an invalid all-positive triple lands on the
same fallback. -/
theorem invalid_mode_reset_fallback (st : RSState) (p : PropId) (v : GVal) :
    (colorInvalidPos (assignProp st p v) →
       (gst_realsense_src_set_property st p v).1.color_width = 1280
       ∧ (gst_realsense_src_set_property st p v).1.color_height = 720
       ∧ (gst_realsense_src_set_property st p v).1.color_fps = 30
       ∧ Warn.invalidColorMode ∈ (gst_realsense_src_set_property st p v).2)
    ∧ (depthInvalidPos (assignProp st p v) →
       (gst_realsense_src_set_property st p v).1.depth_width = 640
       ∧ (gst_realsense_src_set_property st p v).1.depth_height = 480
       ∧ (gst_realsense_src_set_property st p v).1.depth_fps = 30
       ∧ Warn.invalidDepthMode ∈ (gst_realsense_src_set_property st p v).2)
    ∧ (colorInvalidPos (assignProp (gst_realsense_src_set_property st p v).1 p v) →
       (gst_realsense_src_set_property
          (gst_realsense_src_set_property st p v).1 p v).1.color_width = 1280
       ∧ (gst_realsense_src_set_property
            (gst_realsense_src_set_property st p v).1 p v).1.color_height = 720
       ∧ (gst_realsense_src_set_property
            (gst_realsense_src_set_property st p v).1 p v).1.color_fps = 30)
    ∧ (depthInvalidPos (assignProp (gst_realsense_src_set_property st p v).1 p v) →
       (gst_realsense_src_set_property
          (gst_realsense_src_set_property st p v).1 p v).1.depth_width = 640
       ∧ (gst_realsense_src_set_property
            (gst_realsense_src_set_property st p v).1 p v).1.depth_height = 480
       ∧ (gst_realsense_src_set_property
            (gst_realsense_src_set_property st p v).1 p v).1.depth_fps = 30) := by
  refine ⟨fun h => set_property_color_reset st p v h,
          fun h => set_property_depth_reset st p v h,
          fun h => ?_, fun h => ?_⟩
  · obtain ⟨a, b, c, _⟩ := set_property_color_reset _ p v h
    exact ⟨a, b, c⟩
  · obtain ⟨a, b, c, _⟩ := set_property_depth_reset _ p v h
    exact ⟨a, b, c⟩

/-- C8 (witness): setting color width 999 (resp. depth width 999) on the
default state yields an invalid all-positive triple and reverts the stream
to its fallback with the warning emitted. -/
theorem invalid_mode_reset_fallback_witness :
    ((gst_realsense_src_set_property initState .colorWidth (.gint 999)).1.color_width = 1280
     ∧ (gst_realsense_src_set_property initState .colorWidth (.gint 999)).1.color_height = 720
     ∧ (gst_realsense_src_set_property initState .colorWidth (.gint 999)).1.color_fps = 30
     ∧ Warn.invalidColorMode ∈ (gst_realsense_src_set_property initState .colorWidth (.gint 999)).2)
    ∧ ((gst_realsense_src_set_property initState .depthWidth (.gint 999)).1.depth_width = 640
     ∧ (gst_realsense_src_set_property initState .depthWidth (.gint 999)).1.depth_height = 480
     ∧ (gst_realsense_src_set_property initState .depthWidth (.gint 999)).1.depth_fps = 30
     ∧ Warn.invalidDepthMode ∈ (gst_realsense_src_set_property initState .depthWidth (.gint 999)).2) :=
  ⟨(invalid_mode_reset_fallback initState .colorWidth (.gint 999)).1 (by decide),
   (invalid_mode_reset_fallback initState .depthWidth (.gint 999)).2.1 (by decide)⟩

theorem assignProp_pos (st : RSState) (p : PropId) (v : GVal)
    (hst : validTriples st = true) (hv : propInRange p v = true) :
    (0 < (assignProp st p v).color_width ∧ 0 < (assignProp st p v).color_height
      ∧ 0 < (assignProp st p v).color_fps)
    ∧ (0 < (assignProp st p v).depth_width ∧ 0 < (assignProp st p v).depth_height
      ∧ 0 < (assignProp st p v).depth_fps) := by
  unfold validTriples at hst
  rw [Bool.and_eq_true] at hst
  obtain ⟨hc1, hc2, hc3⟩ := color_mode_pos hst.1
  obtain ⟨hd1, hd2, hd3⟩ := depth_mode_pos hst.2
  cases p <;> cases v <;>
    simp_all [assignProp, GVal.getInt, GVal.getStr, propInRange] <;> omega

theorem set_property_preserves_valid (st : RSState) (p : PropId) (v : GVal)
    (hst : validTriples st = true) (hv : propInRange p v = true) :
    validTriples (gst_realsense_src_set_property st p v).1 = true := by
  obtain ⟨hcp, hdp⟩ := assignProp_pos st p v hst hv
  have h1 := validateColor_valid_out (assignProp st p v) hcp
  obtain ⟨hf1, hf2, hf3⟩ := validateColor_depth_fields (assignProp st p v)
  have hdp2 : 0 < (validateColor (assignProp st p v)).1.depth_width
      ∧ 0 < (validateColor (assignProp st p v)).1.depth_height
      ∧ 0 < (validateColor (assignProp st p v)).1.depth_fps := by
    rw [hf1, hf2, hf3]
    exact hdp
  have h2 := validateDepth_valid_out (validateColor (assignProp st p v)).1 hdp2
  obtain ⟨hg1, hg2, hg3⟩ :=
    validateDepth_color_fields (validateColor (assignProp st p v)).1
  unfold gst_realsense_src_set_property validTriples
  rw [Bool.and_eq_true]
  constructor
  · rw [hg1, hg2, hg3]
    exact h1
  · exact h2

/-- C9: the stored stream triples are in their mode tables after element
init and after every property write whose value lies in the declared
GParamSpec range (the property system clamps values into those ranges); in
consequence the start-time mode validation can never fail for a
configuration reached through the property interface. -/
theorem property_config_invariant (st : RSState) (p : PropId) (v : GVal)
    (hst : validTriples st = true) (hv : propInRange p v = true) :
    validTriples initState = true
    ∧ validTriples (gst_realsense_src_set_property st p v).1 = true
    ∧ ∀ env : StartEnv,
        (gst_realsense_src_start (gst_realsense_src_set_property st p v).1 env).1
          ≠ .error StartErr.invalidColorMode
        ∧ (gst_realsense_src_start (gst_realsense_src_set_property st p v).1 env).1
          ≠ .error StartErr.invalidDepthMode := by
  have hpres := set_property_preserves_valid st p v hst hv
  refine ⟨by decide, hpres, ?_⟩
  intro env
  have hpres2 := hpres
  unfold validTriples at hpres2
  rw [Bool.and_eq_true] at hpres2
  unfold gst_realsense_src_start
  simp only [hpres2.1, hpres2.2, Bool.not_true, Bool.false_eq_true, if_false]
  exact startBody_no_mode_error _ env

/-- C9 (witness): applying a valid in-range width write to the default
state keeps both triples valid and start cannot fail mode validation. -/
theorem property_config_invariant_witness :
    validTriples initState = true
    ∧ validTriples (gst_realsense_src_set_property initState .colorWidth (.gint 999)).1 = true
    ∧ ((gst_realsense_src_start
          (gst_realsense_src_set_property initState .colorWidth (.gint 999)).1 goodStartEnv).1
         ≠ .error StartErr.invalidColorMode
       ∧ (gst_realsense_src_start
            (gst_realsense_src_set_property initState .colorWidth (.gint 999)).1 goodStartEnv).1
         ≠ .error StartErr.invalidDepthMode) :=
  ⟨(property_config_invariant initState .colorWidth (.gint 999) (by decide) (by decide)).1,
   (property_config_invariant initState .colorWidth (.gint 999) (by decide) (by decide)).2.1,
   (property_config_invariant initState .colorWidth (.gint 999) (by decide) (by decide)).2.2
     goodStartEnv⟩

/-- C1: a create call in which the device delivers a frame set and the
host allocation and mapping succeed returns the filled buffer (with flow
Ok, or Flushing when a stop request is latched); the buffer's upper half is
byte-identical to the pulled color frame's raw data, and for every depth
sample index i below the color pixel count, the 3-byte pixel at offset
size/2 + 3*i is (d mod 10, d div 10, d mod 10) when d < 2560 and (0,0,0)
otherwise.  The size hypothesis states that the negotiated frame size
matches the pulled color frame (as a successful start negotiates it). -/
theorem create_buffer_layout (st : RSState) (env : CreateEnv) (fs : FrameSet)
    (hfs : effectiveFrames st env = .ok fs)
    (halloc : env.allocOk = true) (hmap : env.mapOk = true)
    (hsize : st.out_framesize = 2 * (3 * (fs.color.width * fs.color.height)))
    (hlen : fs.color.data.length = 3 * (fs.color.width * fs.color.height)) :
    (gst_realsense_src_create st env).1
      = .ret (if st.stop_requested then .flushing else .ok)
             (some (fillBuffer st.out_framesize fs env.uninit))
    ∧ (∀ j, j < fs.color.data.length →
        fillBuffer st.out_framesize fs env.uninit j = fs.color.data.getD j 0)
    ∧ (∀ i, i < fs.color.width * fs.color.height →
        fillBuffer st.out_framesize fs env.uninit (st.out_framesize / 2 + 3 * i)
          = (if fs.depth.data.getD i 0 < 2560 then fs.depth.data.getD i 0 % 10 else 0)
        ∧ fillBuffer st.out_framesize fs env.uninit (st.out_framesize / 2 + (3 * i + 1))
          = (if fs.depth.data.getD i 0 < 2560 then fs.depth.data.getD i 0 / 10 else 0)
        ∧ fillBuffer st.out_framesize fs env.uninit (st.out_framesize / 2 + (3 * i + 2))
          = (if fs.depth.data.getD i 0 < 2560 then fs.depth.data.getD i 0 % 10 else 0)) := by
  have hhalf : st.out_framesize / 2 = 3 * (fs.color.width * fs.color.height) := by omega
  refine ⟨?_, ?_, ?_⟩
  · unfold gst_realsense_src_create
    rw [hfs]
    simp [halloc, hmap]
  · intro j hj
    have hcmp : j < st.out_framesize / 2 := by omega
    unfold fillBuffer
    rw [if_pos hcmp]
  · intro i hi
    refine ⟨?_, ?_, ?_⟩
    · unfold fillBuffer
      rw [if_neg (by omega : ¬ st.out_framesize / 2 + 3 * i < st.out_framesize / 2)]
      rw [(by omega : st.out_framesize / 2 + 3 * i - st.out_framesize / 2 = 3 * i)]
      rw [(by omega : 3 * i / 3 = i), (by omega : 3 * i % 3 = 0)]
      rw [if_pos hi]
      simp [encodeDepthByte]
    · unfold fillBuffer
      rw [if_neg (by omega : ¬ st.out_framesize / 2 + (3 * i + 1) < st.out_framesize / 2)]
      rw [(by omega : st.out_framesize / 2 + (3 * i + 1) - st.out_framesize / 2 = 3 * i + 1)]
      rw [(by omega : (3 * i + 1) / 3 = i), (by omega : (3 * i + 1) % 3 = 1)]
      rw [if_pos hi]
      simp [encodeDepthByte]
    · unfold fillBuffer
      rw [if_neg (by omega : ¬ st.out_framesize / 2 + (3 * i + 2) < st.out_framesize / 2)]
      rw [(by omega : st.out_framesize / 2 + (3 * i + 2) - st.out_framesize / 2 = 3 * i + 2)]
      rw [(by omega : (3 * i + 2) / 3 = i), (by omega : (3 * i + 2) % 3 = 2)]
      rw [if_pos hi]
      simp [encodeDepthByte]

/-- C1 (witness): on a concrete 2x1 frame set the buffer bytes are the six
color bytes followed by the encodings (5,2,5) of depth 25 and (0,0,0) of
the clipped depth 2600. -/
theorem create_buffer_layout_witness :
    smallState.out_framesize = 12
    ∧ fillBuffer smallState.out_framesize smallFs smallOkEnv.uninit 0 = 11
    ∧ fillBuffer smallState.out_framesize smallFs smallOkEnv.uninit 6 = 5
    ∧ fillBuffer smallState.out_framesize smallFs smallOkEnv.uninit 7 = 2
    ∧ fillBuffer smallState.out_framesize smallFs smallOkEnv.uninit 8 = 5
    ∧ fillBuffer smallState.out_framesize smallFs smallOkEnv.uninit 9 = 0
    ∧ fillBuffer smallState.out_framesize smallFs smallOkEnv.uninit 10 = 0
    ∧ fillBuffer smallState.out_framesize smallFs smallOkEnv.uninit 11 = 0 := by
  have H := create_buffer_layout smallState smallOkEnv smallFs rfl rfl rfl
    (by decide) (by decide)
  exact ⟨rfl,
    (H.2.1 0 (by decide)).trans (by decide),
    ((H.2.2 0 (by decide)).1).trans (by decide),
    ((H.2.2 0 (by decide)).2.1).trans (by decide),
    ((H.2.2 0 (by decide)).2.2).trans (by decide),
    ((H.2.2 1 (by decide)).1).trans (by decide),
    ((H.2.2 1 (by decide)).2.1).trans (by decide),
    ((H.2.2 1 (by decide)).2.2).trans (by decide)⟩

/-- C7: once unlock latches the stop request, the next completed create
call (device delivering frames, allocation and mapping succeeding) returns
Flushing with the buffer still fully constructed; after a subsequent
unlock_stop, the next such create call returns Ok again. -/
theorem unlock_flushing_cycle (st : RSState) (env env2 : CreateEnv) (fs fs2 : FrameSet)
    (h1 : effectiveFrames (gst_realsense_src_unlock st) env = .ok fs)
    (ha1 : env.allocOk = true) (hm1 : env.mapOk = true)
    (h2 : effectiveFrames
        (gst_realsense_src_unlock_stop
          (gst_realsense_src_create (gst_realsense_src_unlock st) env).2) env2 = .ok fs2)
    (ha2 : env2.allocOk = true) (hm2 : env2.mapOk = true) :
    (gst_realsense_src_create (gst_realsense_src_unlock st) env).1
      = .ret .flushing (some (fillBuffer st.out_framesize fs env.uninit))
    ∧ (gst_realsense_src_create
        (gst_realsense_src_unlock_stop
          (gst_realsense_src_create (gst_realsense_src_unlock st) env).2) env2).1
      = .ret .ok (some (fillBuffer st.out_framesize fs2 env2.uninit)) := by
  have key : ∀ (s : RSState) (e : CreateEnv) (f : FrameSet), effectiveFrames s e = .ok f →
      e.allocOk = true → e.mapOk = true →
      gst_realsense_src_create s e
        = (.ret (if s.stop_requested then .flushing else .ok)
                (some (fillBuffer s.out_framesize f e.uninit)),
           { s with frame_count := s.frame_count + 1 }) := by
    intro s e f hf ha hm
    unfold gst_realsense_src_create
    rw [hf]
    simp [ha, hm]
  constructor
  · rw [key _ _ _ h1 ha1 hm1]
    simp [gst_realsense_src_unlock]
  · rw [key _ _ _ h1 ha1 hm1] at h2
    rw [key _ _ _ h1 ha1 hm1]
    rw [key _ _ _ h2 ha2 hm2]
    simp [gst_realsense_src_unlock, gst_realsense_src_unlock_stop]

/-- C7 (witness): the flushing/ok cycle on the concrete 2x1 streaming
state. -/
theorem unlock_flushing_cycle_witness :
    (gst_realsense_src_create (gst_realsense_src_unlock smallState) smallOkEnv).1
      = .ret .flushing (some (fillBuffer smallState.out_framesize smallFs smallOkEnv.uninit))
    ∧ (gst_realsense_src_create
        (gst_realsense_src_unlock_stop
          (gst_realsense_src_create (gst_realsense_src_unlock smallState) smallOkEnv).2)
        smallOkEnv).1
      = .ret .ok (some (fillBuffer smallState.out_framesize smallFs smallOkEnv.uninit)) :=
  unlock_flushing_cycle smallState smallOkEnv smallOkEnv smallFs smallFs
    rfl rfl rfl rfl rfl rfl
